import Mathlib

/-!
Verification of the node-tvdb client library (src/lib/index.ts) against its
natural-language specification.

The file shallowly embeds the request pipeline of `TheTVDB.sendRequest`
(src/lib/index.ts, lines 202-225), the token memoization of
`TheTVDB.getToken` (lines 22-28) and the constructor (lines 16-20).
The helper modules `./login`, `./check-http-error`, `./check-json-error`,
`./get-next-pages`, `./config` and `./types` are imported by index.ts but are
not part of the available sources; the definitions embedding them are modelled
from the specification (sections 4.3, 4.4 and 6) and say so in their doc
comments.

JavaScript object literals are modelled as association lists
(`List (String × String)`): `objGet` is property lookup, `objSet` is property
assignment (`o[k] = v`: overwrites in place, otherwise appends), and
`objMerge` is object spread (`{...a, ...b}`: every own property of `b` is
assigned over `a` in order).  Promises are modelled by pure values: a settled
network interaction is a function from requests to responses, and rejection is
the `Except` error monad.
-/

namespace NodeTvdb

/-- JS object property lookup: the value stored at key `k`, if any. -/
def objGet : List (String × String) → String → Option String
  | [], _ => none
  | (k1, v1) :: rest, k => if k1 = k then some v1 else objGet rest k

/-- JS object property assignment `o[k] = v`: replaces the binding of `k` in
place when present, otherwise appends it. -/
def objSet : List (String × String) → String → String → List (String × String)
  | [], k, v => [(k, v)]
  | (k1, v1) :: rest, k, v =>
    if k1 = k then (k, v) :: rest else (k1, v1) :: objSet rest k v

/-- JS object spread `\x7b...a, ...b\x7d`: each own property of `b` is
assigned over `a`, left to right. -/
def objMerge (a b : List (String × String)) : List (String × String) :=
  b.foldl (fun acc p => objSet acc p.1 p.2) a

/-- The binding of `k` that wins under JS object semantics when `o` holds
duplicate keys: the last one. -/
def objGetLast (o : List (String × String)) (k : String) : Option String :=
  objGet o.reverse k

/-- Error taxonomy of the request pipeline (spec section 7): non-2xx status,
application-level error payload, unparseable body, connection failure. -/
inductive ReqError where
  | httpError (statusCode : Nat) (statusText : String)
  | apiError (message : String)
  | parseError
  | transportError
  deriving DecidableEq, Repr

/-- Pagination metadata of a response envelope (spec section 6):
`links: \x7b first?, next?, prev?, last? \x7d`, each an integer page number or
absent. -/
structure Links where
  first : Option Nat := none
  prev : Option Nat := none
  next : Option Nat := none
  last : Option Nat := none
  deriving DecidableEq, Repr

/-- The `data` field of an envelope: either an array of items (list endpoints,
subject to pagination) or a single non-array value. -/
inductive PayloadData (α : Type) where
  | arr : List α → PayloadData α
  | obj : α → PayloadData α
  deriving DecidableEq, Repr

/-- A parsed response payload (spec sections 3 and 6): a `data` field, optional
`links` metadata and the API's optional application-error indicator `Error`. -/
structure Envelope (α : Type) where
  data : PayloadData α
  links : Option Links := none
  Error : Option String := none
  deriving DecidableEq, Repr

/-- A raw HTTP response: status code, status text and the body.  The body is
`none` when it does not parse as structured data, `some env` when it parses to
the envelope `env`. -/
structure HttpResponse (α : Type) where
  status : Nat
  statusText : String
  body : Option (Envelope α)
  deriving DecidableEq, Repr

/-- A single GET request as issued by the transport: the full URL and the final
header map. -/
structure Request where
  url : String
  headers : List (String × String)
  deriving DecidableEq, Repr

/-- The remote server, as observed through one settled world state: a function
from requests to responses.  `none` models a connection failure (no HTTP
response at all). -/
def Server (α : Type) : Type := Request → Option (HttpResponse α)

/-- Modelled from the spec: `lib/types.ts` (RequestOptions) is not among the
sources.  Spec section 3: a configuration bag with recognized optional fields
`query`, `headers` and `lang`/`language`. -/
structure RequestOptions where
  query : List (String × String) := []
  headers : List (String × String) := []
  lang : Option String := none
  language : Option String := none
  deriving DecidableEq, Repr

/-- Modelled from the spec: `lib/config.ts` is not among the sources.  The base
URL of the API; its exact value is not used by any theorem. -/
def BASE_URL : String := "https://api.thetvdb.com"

/-- Modelled from the spec: `lib/config.ts` is not among the sources.  The
fixed versioned media type sent as the `Accept` header; its exact value is not
used by any theorem. -/
def AV_HEADER : String := "application/vnd.thetvdb.v3"

/-- Modelled from the spec: `lib/config.ts` is not among the sources.  Spec
section 4.5 step 1 describes the client defaults as empty query/headers with
the language default living on the client, so the default option bag is empty. -/
def DEFAULT_OPTS : RequestOptions := {}

/-- `\x7b ...DEFAULT_OPTS, ...opts \x7d` (src/lib/index.ts line 203): with an
empty default bag, field-wise spread of the caller options over the defaults
yields the caller options themselves, or the defaults when no options were
passed. -/
def mergeOpts (opts : Option RequestOptions) : RequestOptions :=
  opts.getD DEFAULT_OPTS

/-- `url.format(\x7b pathname, query \x7d)` (src/lib/index.ts lines 211-214):
the path, followed by `?k1=v1&k2=v2...` when the query object is non-empty.
Percent-encoding is not modelled; no theorem depends on the URL text beyond
distinct queries producing distinct URLs on the concrete witness inputs. -/
def urlFormat (pathname : String) (query : List (String × String)) : String :=
  match query with
  | [] => pathname
  | _ => pathname ++ "?" ++ String.intercalate "&" (query.map fun p => p.1 ++ "=" ++ p.2)

/-- The client state of `TheTVDB` (src/lib/index.ts lines 13-20): the API key,
the default language, and the memoized token promise (`tokenPromise`), which
here holds the settled token value once the login has been started. -/
structure TheTVDB where
  apiKey : String
  language : String
  tokenPromise : Option String := none
  deriving DecidableEq, Repr

/-- The constructor of `TheTVDB` (src/lib/index.ts lines 16-20): rejects a
falsy (empty) API key with the error message `API key is required`, otherwise
stores the key and the language, the latter defaulting to `en` when the
argument is omitted. -/
def TheTVDB.make (apiKey : String) (language : Option String) : Except String TheTVDB :=
  if apiKey = "" then .error "API key is required"
  else .ok { apiKey := apiKey, language := language.getD "en", tokenPromise := none }

/-- `TheTVDB.getToken` (src/lib/index.ts lines 22-28): when no token promise is
cached, start the login (modelled by the pure function `login`, since
`lib/login.ts` is not among the sources) and cache it; always return the cached
promise.  The check and the assignment run synchronously, with no suspension
point between them, so one call to `getToken` is a single atomic step even
under interleaved concurrent requests. -/
def getToken (login : String → String) (c : TheTVDB) : TheTVDB × String :=
  match c.tokenPromise with
  | some t => (c, t)
  | none =>
    let t := login c.apiKey
    ({ c with tokenPromise := some t }, t)

/-- `n` calls to `getToken` on one client, in the order of an arbitrary
interleaving (each call's check-and-assign is atomic, see `getToken`).
Returns the final client state, every caller's observed token in call order,
and how many of the calls actually started a login (found no cached promise). -/
def runGetToken (login : String → String) : Nat → TheTVDB → TheTVDB × List String × Nat
  | 0, c => (c, [], 0)
  | n + 1, c =>
    let started := if c.tokenPromise.isNone then 1 else 0
    let out := getToken login c
    let rest := runGetToken login n out.1
    (rest.1, out.2 :: rest.2.1, started + rest.2.2)

/-- Modelled from the spec: `lib/check-http-error.ts` is not among the sources.
Spec section 4.3 check 1: any non-2xx status fails with
`HttpError\x7bstatusCode, statusText\x7d`; a 2xx response is passed through
with its body untouched (not parsed). -/
def checkHttpError (res : HttpResponse α) : Except ReqError (HttpResponse α) :=
  if 200 ≤ res.status ∧ res.status ≤ 299 then .ok res
  else .error (.httpError res.status res.statusText)

/-- Modelled from the spec: `lib/check-json-error.ts` is not among the sources.
Spec section 4.3 check 2: parse the body as structured data (`none` body means
parsing failed, giving `ParseError`); a parsed payload carrying a non-empty
`Error` field fails with `ApiError\x7bmessage\x7d`; otherwise the envelope is
produced. -/
def checkJsonError (res : HttpResponse α) : Except ReqError (Envelope α) :=
  match res.body with
  | none => .error .parseError
  | some env =>
    match env.Error with
    | some msg => if msg = "" then .ok env else .error (.apiError msg)
    | none => .ok env

/-- One transport round trip (`fetch`, src/lib/index.ts line 219): a connection
failure surfaces as `TransportError`, otherwise the raw response is produced. -/
def fetchOnce (server : Server α) (req : Request) : Except ReqError (HttpResponse α) :=
  match server req with
  | none => .error .transportError
  | some res => .ok res

/-- The fetch-and-validate chain of src/lib/index.ts lines 219-222:
`fetch(...).then(res => checkHttpError(res)).then(res => checkJsonError(res))`,
promise rejection modelled by the `Except` monad. -/
def fetchValidated (server : Server α) (req : Request) : Except ReqError (Envelope α) :=
  ((fetchOnce server req).bind checkHttpError).bind checkJsonError

/-- The final header map of a request (src/lib/index.ts lines 205-209 and 218):
the fixed `Accept` value and the resolved `Accept-language`
(`options.lang ?? options.language ?? this.language`) are written first, the
caller-supplied headers are spread over them, and `Authorization` is assigned
last, after the token resolves. -/
def buildHeaders (options : RequestOptions) (clientLang token : String) :
    List (String × String) :=
  objSet
    (objMerge
      [("Accept", AV_HEADER),
       ("Accept-language", options.lang.getD (options.language.getD clientLang))]
      options.headers)
    "Authorization" ("Bearer " ++ token)

/-- The request `sendRequest` issues for the first page: URL built from the
base URL, the path, and the merged options' query (src/lib/index.ts lines
211-214); headers built by `buildHeaders` with the memoized token. -/
def initialRequest (login : String → String) (client : TheTVDB) (path : String)
    (opts : Option RequestOptions) : Request :=
  let options := mergeOpts opts
  { url := BASE_URL ++ "/" ++ urlFormat path options.query,
    headers := buildHeaders options client.language (getToken login client).2 }

/-- The request issued for a subsequent page `p`: identical to the original
request except that the query's `page` parameter is overwritten with `p`
(spec section 4.4). -/
def pageRequest (login : String → String) (client : TheTVDB) (path : String)
    (opts : Option RequestOptions) (p : Nat) : Request :=
  let options := mergeOpts opts
  { url := BASE_URL ++ "/" ++ urlFormat path (objSet options.query "page" (toString p)),
    headers := buildHeaders options client.language (getToken login client).2 }

/-- Fetch one subsequent page through the same token/transport/validator path
(spec section 4.4), recording the request that was issued. -/
def pageFetcher (server : Server α) (login : String → String) (client : TheTVDB)
    (path : String) (opts : Option RequestOptions) (p : Nat) :
    Except ReqError (Envelope α) × List Request :=
  (fetchValidated server (pageRequest login client path opts p),
   [pageRequest login client path opts p])

/-- Modelled from the spec: the page loop of `lib/get-next-pages.ts` (not among
the sources), spec sections 4.4 and 9: a fold over the remaining page numbers,
in ascending order, accumulating the concatenated `data` arrays and aborting on
the first failure.  A subsequent page whose `data` is not an array contributes
nothing (the spec's merge rule only concatenates arrays).  Also returns the
requests issued, in order. -/
def fetchPages (fetchP : Nat → Except ReqError (Envelope α) × List Request) :
    List Nat → List α → Except ReqError (List α) × List Request
  | [], acc => (.ok acc, [])
  | p :: ps, acc =>
    match fetchP p with
    | (.error e, log) => (.error e, log)
    | (.ok env, log) =>
      match env.data with
      | .arr ys =>
        let rest := fetchPages fetchP ps (acc ++ ys)
        (rest.1, log ++ rest.2)
      | .obj _ =>
        let rest := fetchPages fetchP ps acc
        (rest.1, log ++ rest.2)

/-- Modelled from the spec: `lib/get-next-pages.ts` is not among the sources.
Spec section 4.4: when `links.next` is absent, not a page number greater
than 1, or the first page's `data` is not array-typed, the envelope is
returned unmodified with zero additional fetches.  Otherwise the remaining
pages `links.next .. links.last` (just `links.next` when `links.last` is
absent) are fetched sequentially in ascending order and their `data` arrays
concatenated onto the first page's.  Also returns the requests issued, in
order. -/
def getNextPages (fetchP : Nat → Except ReqError (Envelope α) × List Request)
    (res : Envelope α) : Except ReqError (Envelope α) × List Request :=
  match res.links with
  | none => (.ok res, [])
  | some links =>
    match links.next with
    | none => (.ok res, [])
    | some next =>
      if next ≤ 1 then (.ok res, [])
      else
        match res.data with
        | .obj _ => (.ok res, [])
        | .arr xs =>
          let lastPage := links.last.getD next
          let out := fetchPages fetchP (List.range' next (lastPage + 1 - next)) xs
          (out.1.map fun merged => { res with data := .arr merged }, out.2)

/-- `TheTVDB.sendRequest` (src/lib/index.ts lines 202-225): merge the caller
options over the defaults, build the request URL and headers, obtain the
memoized token, fetch, run `checkHttpError` then `checkJsonError`, aggregate
the remaining pages with `getNextPages`, and return the aggregated envelope's
`data`.  The second component records every request issued, in order. -/
def sendRequest (server : Server α) (login : String → String) (client : TheTVDB)
    (path : String) (opts : Option RequestOptions) :
    Except ReqError (PayloadData α) × List Request :=
  let req := initialRequest login client path opts
  match fetchValidated server req with
  | .error e => (.error e, [req])
  | .ok env =>
    let out := getNextPages (pageFetcher server login client path opts) env
    (out.1.map Envelope.data, req :: out.2)

/-- Modelled from the spec: the Request Pipeline `execute(path, options)` of
spec section 4.5, written as the spec's six numbered steps in their stated
order: (1) merge options over client defaults, (2) build the URL from base URL,
path and query, (3) obtain the memoized token, (4) set the final headers,
(5) transport, then status check, then payload check, then pagination
aggregation, (6) return the aggregated `data`. -/
def executeSpec (server : Server α) (login : String → String) (client : TheTVDB)
    (path : String) (opts : Option RequestOptions) :
    Except ReqError (PayloadData α) := do
  let options := mergeOpts opts
  let requestURL := BASE_URL ++ "/" ++ urlFormat path options.query
  let token := (getToken login client).2
  let headers := buildHeaders options client.language token
  let res ← fetchOnce server { url := requestURL, headers := headers }
  let checked ← checkHttpError res
  let env ← checkJsonError checked
  let merged ← (getNextPages (pageFetcher server login client path opts) env).1
  pure merged.data

/-- Decidable equality of pipeline results, so that witnesses can be settled
by evaluation. -/
instance {ε α : Type} [DecidableEq ε] [DecidableEq α] : DecidableEq (Except ε α) := fun a b =>
  match a, b with
  | .ok x, .ok y => if h : x = y then .isTrue (by rw [h]) else .isFalse (by simp [h])
  | .error x, .error y => if h : x = y then .isTrue (by rw [h]) else .isFalse (by simp [h])
  | .ok _, .error _ => .isFalse (by simp)
  | .error _, .ok _ => .isFalse (by simp)

/-- A fixed pure login exchange used by concrete witnesses. -/
def demoLogin : String → String := fun _ => "tok"

/-- A fixed client used by concrete witnesses. -/
def demoClient : TheTVDB := { apiKey := "k", language := "en" }

/-- Witness server for the three-page aggregation: page 1 announces
`links = \x7bfirst:1, next:2, last:3\x7d`, pages 2 and 3 hold the remaining
data. -/
def serverThreePages : Server Nat := fun req =>
  if req.url = "https://api.thetvdb.com/series/1/episodes" then
    some ⟨200, "OK", some ⟨.arr [1, 2], some ⟨some 1, none, some 2, some 3⟩, none⟩⟩
  else if req.url = "https://api.thetvdb.com/series/1/episodes?page=2" then
    some ⟨200, "OK", some ⟨.arr [3, 4], none, none⟩⟩
  else if req.url = "https://api.thetvdb.com/series/1/episodes?page=3" then
    some ⟨200, "OK", some ⟨.arr [5, 6], none, none⟩⟩
  else none

/-- Witness server for the aborted aggregation: page 1 announces three pages,
page 2 succeeds, page 3 answers with HTTP 500 — so the failure strikes after a
subsequent page has already been merged. -/
def serverFailingPage3 : Server Nat := fun req =>
  if req.url = "https://api.thetvdb.com/series/1/episodes" then
    some ⟨200, "OK", some ⟨.arr [1, 2], some ⟨some 1, none, some 2, some 3⟩, none⟩⟩
  else if req.url = "https://api.thetvdb.com/series/1/episodes?page=2" then
    some ⟨200, "OK", some ⟨.arr [3, 4], none, none⟩⟩
  else if req.url = "https://api.thetvdb.com/series/1/episodes?page=3" then
    some ⟨500, "Internal Server Error", none⟩
  else none

/-- Witness server answering 401 with an unparseable body to every request. -/
def serverUnauthorized : Server Nat := fun _ => some ⟨401, "Unauthorized", none⟩

/-- Witness server answering 200 with the payload
`\x7b"data":null,"Error":"ID not found"\x7d` to every request (the `null` data
is modelled as the non-array value `none`). -/
def serverApiError : Server (Option Nat) := fun _ =>
  some ⟨200, "OK", some ⟨.obj none, none, some "ID not found"⟩⟩

/-- Witness server for the single-page case: one page whose `links` carries no
`next`. -/
def serverOnePage : Server Nat := fun _ =>
  some ⟨200, "OK", some ⟨.arr [7, 8], some ⟨some 1, none, none, some 1⟩, none⟩⟩

/-- Witness options carrying caller-supplied Authorization, Accept and
Accept-language headers. -/
def optsCallerHeaders : RequestOptions :=
  { headers := [("Authorization", "Bearer evil"), ("Accept", "text/plain"),
                ("Accept-language", "fr")] }

/-- Witness options whose `lang` field is set while the caller headers also
carry an Accept-language entry. -/
def optsLangAndHeader : RequestOptions :=
  { headers := [("Accept-language", "xx")], lang := some "fr" }

theorem objGet_objSet_self (o : List (String × String)) (k v : String) :
    objGet (objSet o k v) k = some v := by
  induction o with
  | nil => simp [objSet, objGet]
  | cons p rest ih =>
    obtain ⟨k1, v1⟩ := p
    by_cases h : k1 = k
    · simp [objSet, h, objGet]
    · simp [objSet, h, objGet, ih]

theorem objGet_objSet_ne (o : List (String × String)) (k v : String)
    (k' : String) (hne : k' ≠ k) : objGet (objSet o k v) k' = objGet o k' := by
  have hkk : k ≠ k' := Ne.symm hne
  induction o with
  | nil => simp [objSet, objGet, hkk]
  | cons p rest ih =>
    obtain ⟨k1, v1⟩ := p
    by_cases h : k1 = k
    · subst h
      simp [objSet, objGet, hkk]
    · by_cases h' : k1 = k'
      · simp [objSet, objGet, h, h', hne]
      · simp [objSet, objGet, h, h', ih]

theorem objGet_append (l1 l2 : List (String × String)) (k : String) :
    objGet (l1 ++ l2) k =
      match objGet l1 k with
      | some v => some v
      | none => objGet l2 k := by
  induction l1 with
  | nil => simp [objGet]
  | cons p rest ih =>
    obtain ⟨k1, v1⟩ := p
    by_cases h : k1 = k
    · simp [objGet, h]
    · simp [objGet, h, ih]

theorem objGet_objMerge (b a : List (String × String)) (k : String) :
    objGet (objMerge a b) k =
      match objGetLast b k with
      | some v => some v
      | none => objGet a k := by
  induction b generalizing a with
  | nil => simp [objMerge, objGetLast, objGet]
  | cons p rest ih =>
    obtain ⟨k1, v1⟩ := p
    have step : objMerge a ((k1, v1) :: rest) = objMerge (objSet a k1 v1) rest := by
      simp [objMerge]
    rw [step, ih]
    simp only [objGetLast, List.reverse_cons, objGet_append]
    rcases hlast : objGet rest.reverse k with _ | v
    · simp only [hlast]
      by_cases h : k1 = k
      · subst h
        simp [objGet, objGet_objSet_self]
      · simp [objGet, h, objGet_objSet_ne a k1 v1 k (Ne.symm h)]
    · simp [hlast]

/-- C10: constructing a TheTVDB client with an empty (falsy) apiKey string
fails with the error message `API key is required`; with any non-empty apiKey
the constructor succeeds and stores the apiKey and the language, the language
defaulting to `en` when omitted. -/
theorem make_requires_apiKey (apiKey : String) (language : Option String) :
    (apiKey = "" → TheTVDB.make apiKey language = .error "API key is required") ∧
    (apiKey ≠ "" →
      TheTVDB.make apiKey language =
        .ok { apiKey := apiKey, language := language.getD "en", tokenPromise := none }) := by
  constructor
  · intro h
    simp [TheTVDB.make, h]
  · intro h
    simp [TheTVDB.make, h]

/-- Witness for C10 at the concrete keys `""` and `"key"`. -/
theorem make_requires_apiKey_witness :
    TheTVDB.make "" (some "de") = .error "API key is required" ∧
    TheTVDB.make "key" none =
      .ok { apiKey := "key", language := "en", tokenPromise := none } :=
  ⟨(make_requires_apiKey "" (some "de")).1 rfl,
   (make_requires_apiKey "key" none).2 (by decide)⟩

/-- Once a token promise is cached, further `getToken` calls start no login and
observe the cached result, leaving the client unchanged. -/
theorem runGetToken_memoized (login : String → String) (t : String) :
    ∀ (n : Nat) (c : TheTVDB), c.tokenPromise = some t →
      runGetToken login n c = (c, List.replicate n t, 0) := by
  intro n
  induction n with
  | zero =>
    intro c h
    simp [runGetToken]
  | succ m ih =>
    intro c h
    simp [runGetToken, getToken, h, ih c h, List.replicate]

/-- C2: for every sequence of `n ≥ 1` interleaved calls needing the token on a
fresh client (each call's check-and-assign in `getToken` is one atomic step,
src/lib/index.ts lines 22-28), the login exchange is started exactly once, and
every caller observes the same memoized result. -/
theorem getToken_login_once (login : String → String) (c0 : TheTVDB) (n : Nat)
    (hfresh : c0.tokenPromise = none) (hn : 1 ≤ n) :
    (runGetToken login n c0).2.2 = 1 ∧
    ∀ t ∈ (runGetToken login n c0).2.1, t = login c0.apiKey := by
  obtain ⟨m, rfl⟩ : ∃ m, n = m + 1 := ⟨n - 1, by omega⟩
  have hstep : getToken login c0 =
      ({ c0 with tokenPromise := some (login c0.apiKey) }, login c0.apiKey) := by
    simp [getToken, hfresh]
  have hrest := runGetToken_memoized login (login c0.apiKey) m
      { c0 with tokenPromise := some (login c0.apiKey) } rfl
  constructor
  · simp [runGetToken, hfresh, hstep, hrest]
  · intro t ht
    simp only [runGetToken, hfresh, hstep, hrest] at ht
    simp at ht
    rcases ht with h | h
    · exact h
    · exact h.2

/-- Witness for C2: three calls on a fresh client start one login and all
observe the token. -/
theorem getToken_login_once_witness :
    (runGetToken demoLogin 3 demoClient).2.2 = 1 ∧
    ∀ t ∈ (runGetToken demoLogin 3 demoClient).2.1, t = demoLogin demoClient.apiKey :=
  getToken_login_once demoLogin demoClient 3 rfl (by decide)

/-- C4: when the response to the call's request has a non-2xx HTTP status, the
call fails with HttpError carrying that status code and status text.  The
conclusion holds for every body, parseable or not, so the payload-level check
(ParseError/ApiError) is never reached and the body is never parsed. -/
theorem sendRequest_http_error {α : Type} (server : Server α) (login : String → String)
    (client : TheTVDB) (path : String) (opts : Option RequestOptions)
    (res : HttpResponse α)
    (hres : server (initialRequest login client path opts) = some res)
    (hstatus : ¬(200 ≤ res.status ∧ res.status ≤ 299)) :
    sendRequest server login client path opts =
      (.error (.httpError res.status res.statusText),
       [initialRequest login client path opts]) := by
  have hfv : fetchValidated server (initialRequest login client path opts) =
      .error (.httpError res.status res.statusText) := by
    simp [fetchValidated, fetchOnce, hres, checkHttpError, hstatus, Except.bind]
  simp [sendRequest, hfv]

/-- Witness for C4: a 401 response with an unparseable body still fails with
`HttpError 401` (no parsing is attempted). -/
theorem sendRequest_http_error_witness :
    sendRequest serverUnauthorized demoLogin demoClient "languages" none =
      (.error (.httpError 401 "Unauthorized"),
       [initialRequest demoLogin demoClient "languages" none]) :=
  sendRequest_http_error serverUnauthorized demoLogin demoClient "languages" none
    ⟨401, "Unauthorized", none⟩ rfl (by decide)

/-- C5: when the response has a 2xx status and its parsed payload carries a
non-empty `Error` field, the call fails with ApiError carrying that message
instead of succeeding. -/
theorem sendRequest_api_error {α : Type} (server : Server α) (login : String → String)
    (client : TheTVDB) (path : String) (opts : Option RequestOptions)
    (res : HttpResponse α) (env : Envelope α) (msg : String)
    (hres : server (initialRequest login client path opts) = some res)
    (hstatus : 200 ≤ res.status ∧ res.status ≤ 299)
    (hbody : res.body = some env)
    (herr : env.Error = some msg) (hne : msg ≠ "") :
    sendRequest server login client path opts =
      (.error (.apiError msg), [initialRequest login client path opts]) := by
  have hfv : fetchValidated server (initialRequest login client path opts) =
      .error (.apiError msg) := by
    simp [fetchValidated, fetchOnce, hres, checkHttpError, hstatus, checkJsonError,
      hbody, herr, hne, Except.bind]
  simp [sendRequest, hfv]

/-- Witness for C5: HTTP 200 with body `\x7b"data":null,"Error":"ID not found"\x7d`
fails with `ApiError "ID not found"`. -/
theorem sendRequest_api_error_witness :
    sendRequest serverApiError demoLogin demoClient "episodes/42" none =
      (.error (.apiError "ID not found"),
       [initialRequest demoLogin demoClient "episodes/42" none]) :=
  sendRequest_api_error serverApiError demoLogin demoClient "episodes/42" none
    ⟨200, "OK", some ⟨.obj none, none, some "ID not found"⟩⟩
    ⟨.obj none, none, some "ID not found"⟩ "ID not found"
    rfl (by decide) rfl rfl (by decide)

/-- C7: in the final header map of every request, Authorization is always
`Bearer <token>` — a caller-supplied Authorization header is overwritten,
because Authorization is assigned after the caller headers are merged — while
caller-supplied Accept and Accept-language headers do override the computed
defaults, because the caller headers are spread after the fixed values. -/
theorem buildHeaders_precedence (options : RequestOptions) (clientLang token : String) :
    objGet (buildHeaders options clientLang token) "Authorization" =
      some ("Bearer " ++ token) ∧
    (∀ v, objGetLast options.headers "Accept" = some v →
      objGet (buildHeaders options clientLang token) "Accept" = some v) ∧
    (∀ v, objGetLast options.headers "Accept-language" = some v →
      objGet (buildHeaders options clientLang token) "Accept-language" = some v) := by
  refine ⟨objGet_objSet_self _ _ _, ?_, ?_⟩
  · intro v hv
    rw [buildHeaders, objGet_objSet_ne _ _ _ _ (by decide), objGet_objMerge, hv]
  · intro v hv
    rw [buildHeaders, objGet_objSet_ne _ _ _ _ (by decide), objGet_objMerge, hv]

/-- Witness for C7: with caller headers supplying Authorization, Accept and
Accept-language, the final map keeps the computed Authorization but the
caller's Accept and Accept-language. -/
theorem buildHeaders_precedence_witness :
    objGet (buildHeaders optsCallerHeaders "en" "tok") "Authorization" =
      some ("Bearer " ++ "tok") ∧
    objGet (buildHeaders optsCallerHeaders "en" "tok") "Accept" = some "text/plain" ∧
    objGet (buildHeaders optsCallerHeaders "en" "tok") "Accept-language" = some "fr" :=
  ⟨(buildHeaders_precedence optsCallerHeaders "en" "tok").1,
   (buildHeaders_precedence optsCallerHeaders "en" "tok").2.1 "text/plain" (by decide),
   (buildHeaders_precedence optsCallerHeaders "en" "tok").2.2 "fr" (by decide)⟩

/-- C9 counterexample: with `options.lang = some "fr"` but a caller-supplied
`Accept-language` header `"xx"`, the Accept-language header sent is `"xx"`,
not `options.lang` — caller headers are spread after the fixed values, so the
claim's "for every call" fails on calls that supply that header. -/
theorem acceptLanguage_caller_overrides_lang :
    optsLangAndHeader.lang = some "fr" ∧
    objGet (buildHeaders optsLangAndHeader "en" "tok") "Accept-language" = some "xx" ∧
    objGet (buildHeaders optsLangAndHeader "en" "tok") "Accept-language" ≠ some "fr" := by
  refine ⟨rfl, by decide, by decide⟩

/-- C9 (amended): when the caller headers carry no Accept-language entry, the
Accept-language header sent is options.lang when set, otherwise
options.language when set, otherwise the client's default language. -/
theorem acceptLanguage_resolution (options : RequestOptions) (clientLang token : String)
    (hnone : objGetLast options.headers "Accept-language" = none) :
    objGet (buildHeaders options clientLang token) "Accept-language" =
      some (options.lang.getD (options.language.getD clientLang)) := by
  rw [buildHeaders, objGet_objSet_ne _ _ _ _ (by decide), objGet_objMerge, hnone]
  simp [objGet]

/-- Witness for C9 (amended): with no caller Accept-language header,
`lang = some "fr"` wins over `language = some "de"` and the client default. -/
theorem acceptLanguage_resolution_witness :
    objGet (buildHeaders { lang := some "fr", language := some "de" } "en" "tok")
      "Accept-language" = some "fr" :=
  acceptLanguage_resolution { lang := some "fr", language := some "de" } "en" "tok" rfl

/-- C6: when the first page's validated envelope carries no `links.next`, the
call's result is exactly that envelope's `data`, unmodified, and exactly one
request is issued (zero additional page fetches). -/
theorem sendRequest_single_page {α : Type} (server : Server α) (login : String → String)
    (client : TheTVDB) (path : String) (opts : Option RequestOptions)
    (env : Envelope α)
    (hfv : fetchValidated server (initialRequest login client path opts) = .ok env)
    (hnext : env.links.bind Links.next = none) :
    sendRequest server login client path opts =
      (.ok env.data, [initialRequest login client path opts]) := by
  have hagg : getNextPages (pageFetcher server login client path opts) env = (.ok env, []) := by
    rcases hl : env.links with _ | links
    · simp [getNextPages, hl]
    · rcases hn : links.next with _ | nx
      · simp [getNextPages, hl, hn]
      · rw [hl] at hnext
        simp [hn] at hnext
  simp [sendRequest, hfv, hagg, Except.map]

/-- Witness for C6: a one-page response (`links` without `next`) is returned
as-is after a single fetch. -/
theorem sendRequest_single_page_witness :
    sendRequest serverOnePage demoLogin demoClient "languages" none =
      (.ok (.arr [7, 8]), [initialRequest demoLogin demoClient "languages" none]) :=
  sendRequest_single_page serverOnePage demoLogin demoClient "languages" none
    ⟨.arr [7, 8], some ⟨some 1, none, none, some 1⟩, none⟩ rfl rfl

/-- C1: for a call whose first-page envelope has array-typed data `xs` and
links `\x7bfirst:1, next:2, last:3\x7d`, with pages 2 and 3 validating to
array-typed data `ys` and `zs`, the aggregated result is the concatenation
`xs ++ ys ++ zs` — within-page order preserved — and the requests are issued
sequentially in strictly ascending page order: first page, then page 2, then
page 3. -/
theorem sendRequest_aggregates_pages {α : Type} (server : Server α)
    (login : String → String) (client : TheTVDB) (path : String)
    (opts : Option RequestOptions) (xs ys zs : List α) (env2 env3 : Envelope α)
    (h1 : fetchValidated server (initialRequest login client path opts) =
      .ok ⟨.arr xs, some ⟨some 1, none, some 2, some 3⟩, none⟩)
    (h2 : fetchValidated server (pageRequest login client path opts 2) = .ok env2)
    (h2d : env2.data = .arr ys)
    (h3 : fetchValidated server (pageRequest login client path opts 3) = .ok env3)
    (h3d : env3.data = .arr zs) :
    sendRequest server login client path opts =
      (.ok (.arr (xs ++ ys ++ zs)),
       [initialRequest login client path opts,
        pageRequest login client path opts 2,
        pageRequest login client path opts 3]) := by
  have hrange : List.range' 2 (3 + 1 - 2) = [2, 3] := rfl
  simp only [sendRequest, h1, getNextPages, hrange]
  simp only [fetchPages, pageFetcher, h2, h2d, h3, h3d]
  simp [Except.map, List.append_assoc]

/-- Witness for C1: three pages `[1,2]`, `[3,4]`, `[5,6]` aggregate to
`[1,2,3,4,5,6]`, fetched in ascending order. -/
theorem sendRequest_aggregates_pages_witness :
    sendRequest serverThreePages demoLogin demoClient "series/1/episodes" none =
      (.ok (.arr ([1, 2] ++ [3, 4] ++ [5, 6])),
       [initialRequest demoLogin demoClient "series/1/episodes" none,
        pageRequest demoLogin demoClient "series/1/episodes" none 2,
        pageRequest demoLogin demoClient "series/1/episodes" none 3]) :=
  sendRequest_aggregates_pages serverThreePages demoLogin demoClient
    "series/1/episodes" none [1, 2] [3, 4] [5, 6]
    ⟨.arr [3, 4], none, none⟩ ⟨.arr [5, 6], none, none⟩
    rfl rfl rfl rfl rfl

/-- C3: for every multi-page aggregation — first page validated with
array-typed data and `links.next` naming a page of at least 2, the remaining
range `links.next .. links.last` splitting as `done ++ k :: rest` with every
page in `done` validating successfully — if the fetch of page `k` fails with
any error `e` (HttpError, ApiError, TransportError or ParseError), the whole
call fails with exactly `e`: the pages after `k` are never fetched and no
partially merged collection is ever returned. -/
theorem sendRequest_aborts_on_page_error {α : Type} (server : Server α)
    (login : String → String) (client : TheTVDB) (path : String)
    (opts : Option RequestOptions) (xs : List α) (env1 : Envelope α)
    (links : Links) (nxt k : Nat) (done rest : List Nat) (e : ReqError)
    (h1 : fetchValidated server (initialRequest login client path opts) = .ok env1)
    (h1d : env1.data = .arr xs)
    (h1l : env1.links = some links)
    (hnxt : links.next = some nxt)
    (h2le : 2 ≤ nxt)
    (hsplit : List.range' nxt (links.last.getD nxt + 1 - nxt) = done ++ k :: rest)
    (hdone : ∀ p ∈ done, ∃ envp,
      fetchValidated server (pageRequest login client path opts p) = .ok envp)
    (hk : fetchValidated server (pageRequest login client path opts k) = .error e) :
    sendRequest server login client path opts =
      (.error e,
       initialRequest login client path opts ::
         (done.map (pageRequest login client path opts) ++
          [pageRequest login client path opts k])) := by
  have hfp : ∀ (ds : List Nat),
      (∀ p ∈ ds, ∃ envp,
        fetchValidated server (pageRequest login client path opts p) = .ok envp) →
      ∀ (rs : List Nat) (acc : List α),
      fetchPages (pageFetcher server login client path opts) (ds ++ k :: rs) acc =
        (.error e, ds.map (pageRequest login client path opts) ++
          [pageRequest login client path opts k]) := by
    intro ds
    induction ds with
    | nil =>
      intro _ rs acc
      simp [fetchPages, pageFetcher, hk]
    | cons p ds' ih =>
      intro hds rs acc
      obtain ⟨envp, hp⟩ := hds p (by simp)
      have hds' : ∀ q ∈ ds', ∃ envq,
          fetchValidated server (pageRequest login client path opts q) = .ok envq :=
        fun q hq => hds q (by simp [hq])
      cases hd : envp.data with
      | arr ys =>
        simp [fetchPages, pageFetcher, hp, hd, ih hds' rs (acc ++ ys)]
      | obj v =>
        simp [fetchPages, pageFetcher, hp, hd, ih hds' rs acc]
  have hnle : ¬nxt ≤ 1 := by omega
  have hagg : getNextPages (pageFetcher server login client path opts) env1 =
      (.error e, done.map (pageRequest login client path opts) ++
        [pageRequest login client path opts k]) := by
    simp only [getNextPages, h1l, hnxt, h1d, if_neg hnle, hsplit]
    rw [hfp done hdone rest xs]
    simp [Except.map]
  simp [sendRequest, h1, hagg, Except.map]

/-- Witness for C3: page 3 answering HTTP 500 after page 2 already merged
makes the whole call fail with `HttpError 500` — the partial merge of pages 1
and 2 is discarded, never returned. -/
theorem sendRequest_aborts_on_page_error_witness :
    sendRequest serverFailingPage3 demoLogin demoClient "series/1/episodes" none =
      (.error (.httpError 500 "Internal Server Error"),
       [initialRequest demoLogin demoClient "series/1/episodes" none,
        pageRequest demoLogin demoClient "series/1/episodes" none 2,
        pageRequest demoLogin demoClient "series/1/episodes" none 3]) :=
  sendRequest_aborts_on_page_error serverFailingPage3 demoLogin demoClient
    "series/1/episodes" none [1, 2]
    ⟨.arr [1, 2], some ⟨some 1, none, some 2, some 3⟩, none⟩
    ⟨some 1, none, some 2, some 3⟩ 2 3 [2] []
    (.httpError 500 "Internal Server Error")
    rfl rfl rfl rfl (by decide) rfl
    (by
      intro p hp
      simp at hp
      subst hp
      exact ⟨⟨.arr [3, 4], none, none⟩, rfl⟩)
    rfl

/-- C8: for every call, `sendRequest` computes exactly what the spec's staged
pipeline computes in its fixed order: merge caller options over client
defaults, build the URL from base URL, path and encoded query, obtain the
memoized token, issue the transport fetch, run the HTTP-status check, run the
payload check, run the pagination aggregator, and return the aggregated
envelope's `data` field (`executeSpec` spells those stages in the spec's
order; each stage's output is the next stage's input, so the sequencing is
forced by the data flow). -/
theorem sendRequest_stage_order {α : Type} (server : Server α) (login : String → String)
    (client : TheTVDB) (path : String) (opts : Option RequestOptions) :
    (sendRequest server login client path opts).1 =
      executeSpec server login client path opts := by
  have hspec : executeSpec server login client path opts =
      (fetchOnce server (initialRequest login client path opts)).bind (fun res =>
        (checkHttpError res).bind (fun checked =>
          (checkJsonError checked).bind (fun env =>
            ((getNextPages (pageFetcher server login client path opts) env).1).bind
              (fun merged => Except.ok merged.data)))) := rfl
  rw [hspec]
  simp only [sendRequest]
  cases h1 : fetchOnce server (initialRequest login client path opts) with
  | error e => simp [fetchValidated, h1, Except.bind]
  | ok res =>
    cases h2 : checkHttpError res with
    | error e => simp [fetchValidated, h1, h2, Except.bind]
    | ok res2 =>
      cases h3 : checkJsonError res2 with
      | error e => simp [fetchValidated, h1, h2, h3, Except.bind]
      | ok env =>
        cases h4 : (getNextPages (pageFetcher server login client path opts) env).1 with
        | error e => simp [fetchValidated, h1, h2, h3, h4, Except.bind, Except.map]
        | ok merged => simp [fetchValidated, h1, h2, h3, h4, Except.bind, Except.map]

end NodeTvdb
